import Mathlib

/-!
Verification of the `monerowallet` RPC client (`src/monerowallet/__init__.py`).

The development shallowly embeds the client:

* parsed JSON documents are modelled by the inductive type `Json`; a parsed
  HTTP response body (a Python `dict` coming from `req.json()`) is modelled
  as an association list `List (String × Json)`;
* the tail of `MoneroWallet.__sendrequest` (everything after the HTTP POST:
  the `error`-field check, the `status` check, and the implicit `return None`)
  becomes the pure function `sendrequest`, returning `Except PyError
  (Option Json)` — `Except.error` models a raised Python exception and the
  `Option Json` payload models the value returned to the caller (`none` is
  Python `None`);
* every public operation's request body is built exactly as in the source:
  fixed byte-string templates with placeholder substitution via
  `bytes.replace`, modelled by `pyReplace`;
* a small executable JSON parser (`parseJson`) gives the meaning of a request
  body, so that claims about «the body's `method` field» or «the `params`
  object» can be stated about the parsed body.
-/

set_option maxHeartbeats 1000000
set_option maxRecDepth 100000

namespace Monerowallet

/-- Parsed JSON values.  Numbers are modelled as integers: every number
appearing in a request body of this client is produced by Python's
`str(int)`. -/
inductive Json where
  | jnull : Json
  | jbool (b : Bool) : Json
  | jnum (n : Int) : Json
  | jstr (s : String) : Json
  | jarr (elems : List Json) : Json
  | jobj (members : List (String × Json)) : Json

/-- Field access on a parsed JSON object (`v[key]` on a Python dict),
`none` when `v` is not an object or the key is absent. -/
def Json.objGet (v : Json) (key : String) : Option Json :=
  match v with
  | .jobj kvs => List.lookup key kvs
  | _ => none

/-- Python `value == 'Method not found'` for a parsed JSON `value`:
true exactly on the string `"Method not found"`. -/
def isMethodNotFoundMsg : Json → Bool
  | .jstr s => s = "Method not found"
  | _ => false

/-- Python `value == 200` for a parsed JSON `value`: true exactly on the
number `200`. -/
def isStatus200 : Json → Bool
  | .jnum n => n = 200
  | _ => false

/-- Exceptions the dispatch tail can raise.  The first two model the
library's own `MethodNotFoundError` / `StatusCodeError`; `keyError` and
`typeError` model the unhandled Python exceptions raised by subscripting
(`result['status']` on a dict lacking the key, `result['error']['message']`
when `result['error']` is not a dict). -/
inductive PyError where
  | methodNotFoundError (request : String) : PyError
  | statusCodeError (response : List (String × Json)) : PyError
  | keyError (key : String) : PyError
  | typeError : PyError

/-- `__init__.py` line 292-293: `if result['status'] != 200: raise
StatusCodeError(...)`, then the function body ends, so Python returns
`None`. -/
def statusCheck (result : List (String × Json)) : Except PyError (Option Json) :=
  match List.lookup "status" result with
  | none => .error (.keyError "status")
  | some st => if isStatus200 st then .ok none else .error (.statusCodeError result)

/-- The response-processing tail of `MoneroWallet.__sendrequest`
(`__init__.py` lines 288-293): the `error`-field check followed by
`statusCheck`.  `jsoncontent` is the serialized request body, carried into
the `MethodNotFoundError` payload as in the source. -/
def sendrequest (jsoncontent : String) (result : List (String × Json)) :
    Except PyError (Option Json) :=
  match List.lookup "error" result with
  | some (Json.jobj errkvs) =>
    match List.lookup "message" errkvs with
    | some msg =>
      if isMethodNotFoundMsg msg then .error (.methodNotFoundError jsoncontent)
      else statusCheck result
    | none => .error (.keyError "message")
  | some _ => .error .typeError
  | none => statusCheck result

/-! ## Python string primitives used by the request builders -/

/-- One step of Python `bytes.replace`: scan `s`, and at each position where
the (non-empty) pattern `pat` occurs, emit `rep` and continue after the
occurrence; the replacement text is not rescanned.  `fuel` bounds the
recursion; callers pass `s.length`, which always suffices because every step
consumes at least one character. -/
def replaceAux (pat rep : List Char) : Nat → List Char → List Char
  | _, [] => []
  | 0, s => s
  | fuel+1, c :: cs =>
    if pat.isPrefixOf (c :: cs) then
      rep ++ replaceAux pat rep fuel (cs.drop (pat.length - 1))
    else
      c :: replaceAux pat rep fuel cs

/-- Python `s.replace(pat, rep)` (for the non-empty patterns used by the
client). -/
def pyReplace (s pat rep : String) : String :=
  (replaceAux pat.data rep.data s.data.length s.data).asString

/-- Python `sep.join(items)`. -/
def pyJoin (sep : String) : List String → String
  | [] => ""
  | [s] => s
  | s :: rest => s ++ sep ++ pyJoin sep (rest)

/-- Python `'"{}"'.format(i)`: wrap a payment id in double quotes. -/
def pyQuote (s : String) : String := "\"" ++ s ++ "\""

/-- Decimal digits of a natural number, most significant first.  `fuel`
bounds the recursion; `natDigits` passes `n + 1`, which always suffices. -/
def natDigitsAux : Nat → Nat → List Char → List Char
  | 0, _, acc => acc
  | fuel+1, n, acc =>
    if n < 10 then Char.ofNat (48 + n % 10) :: acc
    else natDigitsAux fuel (n / 10) (Char.ofNat (48 + n % 10) :: acc)

def natDigits (n : Nat) : List Char := natDigitsAux (n + 1) n []

/-- Python `str(i)` for an `int`. -/
def pyIntStr (i : Int) : String :=
  if i < 0 then "-" ++ (natDigits i.natAbs).asString else (natDigits i.natAbs).asString

/-! ## JSON parser

An executable recursive-descent parser assigning a meaning to request
bodies.  It covers the JSON subset the client can emit — objects, arrays,
double-quoted strings without escape sequences or control characters,
integer numbers, and the three keywords — and is total via an explicit fuel
parameter (one unit per recursion step; the top entry point passes the input
length plus one). -/

/-- Skip JSON whitespace. -/
def skipWs : List Char → List Char
  | [] => []
  | c :: cs => if c = ' ' ∨ c = '\n' ∨ c = '\t' ∨ c = '\r' then skipWs cs else c :: cs

/-- Scan the body of a string literal after the opening quote: return the
content and the remainder after the closing quote.  Backslashes and control
characters are rejected (no escape sequences occur in any body the client
builds). -/
def scanStr : List Char → Option (List Char × List Char)
  | [] => none
  | c :: cs =>
    if c = '"' then some ([], cs)
    else if c = '\\' ∨ c.toNat < 32 then none
    else
      match scanStr cs with
      | some (content, rest) => some (c :: content, rest)
      | none => none

/-- ASCII decimal digit test. -/
def isDigitChar (c : Char) : Bool := 48 ≤ c.toNat && c.toNat ≤ 57

/-- Longest digit prefix and the remainder. -/
def scanDigits : List Char → List Char × List Char
  | [] => ([], [])
  | c :: cs =>
    if isDigitChar c then
      match scanDigits cs with
      | (ds, rest) => (c :: ds, rest)
    else ([], c :: cs)

/-- Value of a digit list, most significant first, on top of accumulator
`acc`. -/
def digitsToNat : List Char → Nat → Nat
  | [], acc => acc
  | c :: cs, acc => digitsToNat cs (acc * 10 + (c.toNat - 48))

mutual

/-- Parse one JSON value (after skipping whitespace), returning it and the
unconsumed remainder. -/
def parseVal : Nat → List Char → Option (Json × List Char)
  | 0, _ => none
  | fuel+1, s =>
    match skipWs s with
    | [] => none
    | c :: cs =>
      if c = '"' then
        match scanStr cs with
        | some (content, rest) => some (.jstr content.asString, rest)
        | none => none
      else if c = '\x7b' then
        match skipWs cs with
        | '\x7d' :: rest => some (.jobj [], rest)
        | cs' =>
          match parseMembers fuel cs' with
          | some (kvs, rest) => some (.jobj kvs, rest)
          | none => none
      else if c = '[' then
        match skipWs cs with
        | ']' :: rest => some (.jarr [], rest)
        | cs' =>
          match parseElems fuel cs' with
          | some (vs, rest) => some (.jarr vs, rest)
          | none => none
      else if c = '-' then
        match scanDigits cs with
        | ([], _) => none
        | (ds, rest) => some (.jnum (-(digitsToNat ds 0 : Int)), rest)
      else if isDigitChar c then
        match scanDigits (c :: cs) with
        | (ds, rest) => some (.jnum (digitsToNat ds 0), rest)
      else if ['t','r','u','e'].isPrefixOf (c :: cs) then some (.jbool true, cs.drop 3)
      else if ['f','a','l','s','e'].isPrefixOf (c :: cs) then some (.jbool false, cs.drop 4)
      else if ['n','u','l','l'].isPrefixOf (c :: cs) then some (.jnull, cs.drop 3)
      else none

/-- Parse a non-empty comma-separated member list of an object, consuming
the closing brace. -/
def parseMembers : Nat → List Char → Option (List (String × Json) × List Char)
  | 0, _ => none
  | fuel+1, s =>
    match skipWs s with
    | '"' :: cs =>
      match scanStr cs with
      | some (key, rest) =>
        match skipWs rest with
        | ':' :: rest2 =>
          match parseVal fuel rest2 with
          | some (v, rest3) =>
            match skipWs rest3 with
            | ',' :: rest4 =>
              match parseMembers fuel rest4 with
              | some (kvs, rest5) => some ((key.asString, v) :: kvs, rest5)
              | none => none
            | '\x7d' :: rest4 => some ([(key.asString, v)], rest4)
            | _ => none
          | none => none
        | _ => none
      | none => none
    | _ => none

/-- Parse a non-empty comma-separated element list of an array, consuming
the closing bracket. -/
def parseElems : Nat → List Char → Option (List Json × List Char)
  | 0, _ => none
  | fuel+1, s =>
    match parseVal fuel s with
    | some (v, rest) =>
      match skipWs rest with
      | ',' :: rest2 =>
        match parseElems fuel rest2 with
        | some (vs, rest3) => some (v :: vs, rest3)
        | none => none
      | ']' :: rest2 => some ([v], rest2)
      | _ => none
    | none => none

end

/-- Parse a complete JSON document: one value followed only by whitespace. -/
def parseJson (s : String) : Option Json :=
  match parseVal (s.data.length + 1) s.data with
  | some (v, rest) => if skipWs rest = [] then some v else none
  | none => none

/-! ## Request bodies

Byte-for-byte transcriptions of the `jsoncontent` literals of
`src/monerowallet/__init__.py` (braces written `\x7b`/`\x7d`). -/

/-- `getbalance` body (line 67). -/
def getbalanceBody : String :=
  "\x7b\n  \"jsonrpc\":\"2.0\",\n  \"id\":\"0\",\n  \"method\":\"getbalance\"\n\x7d\n"

/-- `getaddress` body (line 84). -/
def getaddressBody : String :=
  "\x7b\n  \"jsonrpc\":\"2.0\",\n  \"id\":\"0\",\n  \"method\":\"getaddress\"\n\x7d\n"

/-- `getheight` body (line 101). -/
def getheightBody : String :=
  "\x7b\n  \"jsonrpc\":\"2.0\",\n  \"id\":\"0\",\n  \"method\":\"getheight\"\n\x7d\n"

/-- `sweep_dust` body (line 116). -/
def sweepDustBody : String :=
  "\x7b\n  \"jsonrpc\":\"2.0\",\n  \"id\":\"0\",\n  \"method\":\"sweep_dust\"\n\x7d\n"

/-- `store` body (line 133). -/
def storeBody : String :=
  "\x7b\n  \"jsonrpc\":\"2.0\",\n  \"id\":\"0\",\n  \"method\":\"store\"\n\x7d\n"

/-- `stop_wallet` body (line 271). -/
def stopWalletBody : String :=
  "\x7b\n  \"jsonrpc\":\"2.0\",\n  \"id\":\"0\",\n  \"method\":\"stop_wallet\"\n\x7d\n"

/-- `get_payments` template (line 152); `PAYMENTID` is substituted. -/
def getPaymentsTemplate : String :=
  "\x7b\n  \"jsonrpc\":\"2.0\",\n  \"id\":\"0\",\n  \"method\":\"get_payments\",\n  \"params\":\n    \x7b\n        \"payment_id\":\"PAYMENTID\"\n    \x7d\n\x7d\n"

/-- `get_bulk_payments` template (line 173); `PAYMENTIDS` then `HEIGHT` are
substituted, in that order. -/
def getBulkPaymentsTemplate : String :=
  "\x7b\n  \"jsonrpc\":\"2.0\",\n  \"id\":\"0\",\n  \"method\":\"get_bulk_payments\",\n  \"params\":\n    \x7b\n      \"payment_ids\":[PAYMENTIDS],\n      \"min_block_height\":HEIGHT\n    \x7d\n\x7d\n"

/-- `incoming_transfers` template (line 207); `TYPE` is substituted. -/
def incomingTransfersTemplate : String :=
  "\x7b\n  \"jsonrpc\":\"2.0\",\n  \"id\":\"0\",\n  \"method\":\"incoming_transfers\",\n  \"params\":\n    \x7b\n      \"transfer_type\":\"TYPE\"\n    \x7d\n\x7d\n"

/-- `query_key` template (line 228); `KEYTYPE` is substituted. -/
def queryKeyTemplate : String :=
  "\x7b\n  \"jsonrpc\":\"2.0\",\n  \"id\":\"0\",\n  \"method\":\"query_key\",\n  \"params\":\n    \x7b\n      \"key_type\":\"KEYTYPE\"\n    \x7d\n\x7d\n"

/-- `make_integrated_address` body for an empty payment id (line 248). -/
def makeIntegratedAddressEmptyBody : String :=
  "\x7b\n  \"jsonrpc\":\"2.0\",\n  \"id\":\"0\",\"method\":\n  \"make_integrated_address\",\n    \"params\":\n      \x7b\n        \"payment_id\":\"\"\n      \x7d\n\x7d\n"

/-- `make_integrated_address` template for a non-empty payment id
(line 250); `PAYMENTID` is substituted. -/
def makeIntegratedAddressTemplate : String :=
  "\x7b\n  \"jsonrpc\":\"2.0\",\n  \"id\":\"0\",\"method\":\n  \"make_integrated_address\",\n    \"params\":\n      \x7b\n        \"payment_id\":\"PAYMENTID\"\n      \x7d\n\x7d\n"

/-! ## The client -/

/-- The `self.server` dictionary set by `MoneroWallet.__init__`. -/
structure Server where
  protocol : String
  host : String
  port : Int
  path : String

/-- Client state: the server configuration plus the `self.headers`
attribute, which `__sendrequest` assigns on every call (absent right after
construction). -/
structure MoneroWallet where
  server : Server
  headers : Option (List (String × String))

/-- `MoneroWallet.__init__` (line 50-51).  The Python defaults are
`'http'`, `'127.0.0.1'`, `18082`, `'/json_rpc'`. -/
def MoneroWallet.init (protocol host : String) (port : Int) (path : String) : MoneroWallet :=
  ⟨⟨protocol, host, port, path⟩, none⟩

/-- The URL `'{protocol}://{host}:{port}{path}'.format(...)` built by
`__sendrequest` (line 277-280). -/
def mkUrl (s : Server) : String :=
  s.protocol ++ "://" ++ s.host ++ ":" ++ pyIntStr s.port ++ s.path

/-- The implemented public operations that dispatch a request, with their
arguments. -/
inductive Op where
  | getbalance : Op
  | getaddress : Op
  | getheight : Op
  | sweep_dust : Op
  | store : Op
  | stop_wallet : Op
  | get_payments (payment_id : String) : Op
  | get_bulk_payments (payment_ids : List String) (min_block_height : Int) : Op
  | incoming_transfers (transfer_type : String) : Op
  | query_key (key_type : String) : Op
  | make_integrated_address (payment_id : String) : Op

/-- The serialized request body each operation hands to `__sendrequest`,
exactly as built in the source: template literals with placeholder
substitution by `bytes.replace`.  For `get_bulk_payments`, the ids are
quoted, joined with `','`, substituted for `PAYMENTIDS`, and then
`str(min_block_height)` is substituted for `HEIGHT` in a second pass over
the whole body (lines 174-177).  For `make_integrated_address`, an empty
payment id (Python falsy) selects the pre-substituted literal
(lines 247-251). -/
def requestBody : Op → String
  | .getbalance => getbalanceBody
  | .getaddress => getaddressBody
  | .getheight => getheightBody
  | .sweep_dust => sweepDustBody
  | .store => storeBody
  | .stop_wallet => stopWalletBody
  | .get_payments payment_id => pyReplace getPaymentsTemplate "PAYMENTID" payment_id
  | .get_bulk_payments payment_ids min_block_height =>
    pyReplace
      (pyReplace getBulkPaymentsTemplate "PAYMENTIDS"
        (pyJoin "," (payment_ids.map pyQuote)))
      "HEIGHT" (pyIntStr min_block_height)
  | .incoming_transfers transfer_type => pyReplace incomingTransfersTemplate "TYPE" transfer_type
  | .query_key key_type => pyReplace queryKeyTemplate "KEYTYPE" key_type
  | .make_integrated_address payment_id =>
    if payment_id = "" then makeIntegratedAddressEmptyBody
    else pyReplace makeIntegratedAddressTemplate "PAYMENTID" payment_id

/-- Everything observable about one call of a public operation: the client
state afterwards, the URL the POST was sent to, and the raised-or-returned
outcome of the dispatch tail applied to the parsed response `result`. -/
structure DispatchTrace where
  wallet : MoneroWallet
  url : String
  outcome : Except PyError (Option Json)

/-- Run one public operation against a simulated parsed response:
`__sendrequest` first assigns `self.headers`, builds the URL from
`self.server`, performs the POST (the transport is outside the model; the
parsed response body is the input `result`), and then runs the
error/status checks. -/
def runOp (w : MoneroWallet) (op : Op) (result : List (String × Json)) : DispatchTrace :=
  let w' := { w with headers := some [("Content-Type", "application/json")] }
  ⟨w', mkUrl w'.server, sendrequest (requestBody op) result⟩

/-- `MoneroWallet.transfer` (lines 104-106): the body is `pass`, so the call
builds no request, dispatches nothing, changes nothing and returns
Python `None`. -/
def MoneroWallet.transfer (w : MoneroWallet) : MoneroWallet × Option Json := (w, none)

/-- `MoneroWallet.transfer_split` (lines 109-111): body is `pass`. -/
def MoneroWallet.transfer_split (w : MoneroWallet) : MoneroWallet × Option Json := (w, none)

/-- `MoneroWallet.split_integrated_address` (lines 254-256): body is
`pass`. -/
def MoneroWallet.split_integrated_address (w : MoneroWallet) : MoneroWallet × Option Json :=
  (w, none)

/-- Modelled from the spec: "a correct reimplementation may always send the
field and drop the branch" — the branch-free construction of the
`make_integrated_address` body that always substitutes the supplied
payment id into the template. -/
def makeIntegratedAddressSingle (payment_id : String) : String :=
  pyReplace makeIntegratedAddressTemplate "PAYMENTID" payment_id

/-! ## Expected parsed request envelopes -/

/-- The envelope a parameterless request body denotes. -/
def reqEnvelope (m : String) : Json :=
  .jobj [("jsonrpc", .jstr "2.0"), ("id", .jstr "0"), ("method", .jstr m)]

/-- The envelope the `get_payments` body is supposed to denote. -/
def getPaymentsEnvelope (payment_id : String) : Json :=
  .jobj [("jsonrpc", .jstr "2.0"), ("id", .jstr "0"), ("method", .jstr "get_payments"),
    ("params", .jobj [("payment_id", .jstr payment_id)])]

/-- The envelope the `get_bulk_payments` body is supposed to denote. -/
def getBulkPaymentsEnvelope (payment_ids : List String) (min_block_height : Int) : Json :=
  .jobj [("jsonrpc", .jstr "2.0"), ("id", .jstr "0"), ("method", .jstr "get_bulk_payments"),
    ("params", .jobj [("payment_ids", .jarr (payment_ids.map Json.jstr)),
      ("min_block_height", .jnum min_block_height)])]

/-- The envelope the `make_integrated_address` body denotes. -/
def makeIntegratedAddressEnvelope (payment_id : String) : Json :=
  .jobj [("jsonrpc", .jstr "2.0"), ("id", .jstr "0"), ("method", .jstr "make_integrated_address"),
    ("params", .jobj [("payment_id", .jstr payment_id)])]

/-- The concrete text surrounding the `PAYMENTID` placeholder in the
`make_integrated_address` template: the template is
`miaBodyPre ++ "PAYMENTID" ++ miaBodyPost`, so substitution splices the
supplied id verbatim between these two constants. -/
def miaBodyPre : String :=
  "\x7b\n  \"jsonrpc\":\"2.0\",\n  \"id\":\"0\",\"method\":\n  \"make_integrated_address\",\n    \"params\":\n      \x7b\n        \"payment_id\":\""

/-- Second half of the split of `makeIntegratedAddressTemplate`; see
`miaBodyPre`. -/
def miaBodyPost : String := "\"\n      \x7d\n\x7d\n"

/-! ## Safe payment-id characters and template segments

Predicates and explicit template decompositions used to reason about the
bodies built with placeholder substitution. -/

/-- Characters that can stand verbatim inside a JSON string literal. -/
abbrev SafeChar (c : Char) : Prop := 32 ≤ c.toNat ∧ c ≠ '"' ∧ c ≠ '\\'

/-- All characters of `s` are JSON-string-safe. -/
abbrev SafeStr (s : String) : Prop := ∀ c ∈ s.data, SafeChar c

/-- All characters of `s` are JSON-string-safe and distinct from `'H'`. -/
abbrev BulkSafeStr (s : String) : Prop := ∀ c ∈ s.data, SafeChar c ∧ c ≠ 'H'

/-- Explicit characters of the `get_payments` template before the
`PAYMENTID` placeholder. -/
def gpPre : List Char :=
  ['\x7b', '\n', ' ', ' ', '\"', 'j', 's', 'o', 'n', 'r', 'p', 'c', '\"', ':', '\"', '2', '.', '0', '\"', ',', '\n', ' ', ' ', '\"', 'i', 'd', '\"', ':', '\"', '0', '\"', ',', '\n', ' ', ' ', '\"', 'm', 'e', 't', 'h', 'o', 'd', '\"', ':', '\"', 'g', 'e', 't', '_', 'p', 'a', 'y', 'm', 'e', 'n', 't', 's', '\"', ',', '\n', ' ', ' ', '\"', 'p', 'a', 'r', 'a', 'm', 's', '\"', ':', '\n', ' ', ' ', ' ', ' ', '\x7b', '\n', ' ', ' ', ' ', ' ', ' ', ' ', ' ', ' ', '\"', 'p', 'a', 'y', 'm', 'e', 'n', 't', '_', 'i', 'd', '\"', ':', '\"']

/-- Explicit characters of the `get_payments` template after the
`PAYMENTID` placeholder. -/
def gpPost : List Char :=
  ['\"', '\n', ' ', ' ', ' ', ' ', '\x7d', '\n', '\x7d', '\n']

/-- The `get_bulk_payments` template before the `PAYMENTIDS` placeholder. -/
def blkPre : List Char :=
  ['\x7b', '\n', ' ', ' ', '\"', 'j', 's', 'o', 'n', 'r', 'p', 'c', '\"', ':', '\"', '2', '.', '0', '\"', ',', '\n', ' ', ' ', '\"', 'i', 'd', '\"', ':', '\"', '0', '\"', ',', '\n', ' ', ' ', '\"', 'm', 'e', 't', 'h', 'o', 'd', '\"', ':', '\"', 'g', 'e', 't', '_', 'b', 'u', 'l', 'k', '_', 'p', 'a', 'y', 'm', 'e', 'n', 't', 's', '\"', ',', '\n', ' ', ' ', '\"', 'p', 'a', 'r', 'a', 'm', 's', '\"', ':', '\n', ' ', ' ', ' ', ' ', '\x7b', '\n', ' ', ' ', ' ', ' ', ' ', ' ', '\"', 'p', 'a', 'y', 'm', 'e', 'n', 't', '_', 'i', 'd', 's', '\"', ':', '[']

/-- The `get_bulk_payments` template between the two placeholders. -/
def blkMid : List Char :=
  [']', ',', '\n', ' ', ' ', ' ', ' ', ' ', ' ', '\"', 'm', 'i', 'n', '_', 'b', 'l', 'o', 'c', 'k', '_', 'h', 'e', 'i', 'g', 'h', 't', '\"', ':']

/-- The `get_bulk_payments` template after the `HEIGHT` placeholder. -/
def blkPost : List Char :=
  ['\n', ' ', ' ', ' ', ' ', '\x7d', '\n', '\x7d', '\n']

/-- The error-field check of `__sendrequest` (lines 289-291) raises nothing
on `result`: either no `error` key is present, or the `error` value is an
object whose `message` exists and differs from `"Method not found"`.  This
is the well-formed-envelope reading of «the MethodNotFound branch is not
triggered»: it also rules out the unhandled `KeyError`/`TypeError` that a
malformed `error` value (no `message` key, or a non-object) would raise
before control could reach the status check. -/
def ErrorBranchSilent (result : List (String × Json)) : Prop :=
  List.lookup "error" result = none ∨
    ∃ kvs m, List.lookup "error" result = some (Json.jobj kvs) ∧
      List.lookup "message" kvs = some m ∧ m ≠ Json.jstr "Method not found"

/-- When the error-field check raises nothing, `__sendrequest` continues
with the status check alone. -/
theorem sendrequest_falls_through (jc : String) (result : List (String × Json))
    (herr : ErrorBranchSilent result) :
    sendrequest jc result = statusCheck result := by
  rcases herr with hnone | ⟨kvs, m, he, hm, hmne⟩
  · simp [sendrequest, hnone]
  · have hmsg : isMethodNotFoundMsg m = false := by
      cases m with
      | jstr s =>
        simp only [isMethodNotFoundMsg, decide_eq_false_iff_not]
        intro h
        exact hmne (by rw [h])
      | jnull => rfl
      | jbool b => rfl
      | jnum n => rfl
      | jarr xs => rfl
      | jobj kvs2 => rfl
    simp [sendrequest, he, hm, hmsg]

/-! ## Scanner, digit, substitution and parser lemmas

The general lemmas behind the `get_payments` / `get_bulk_payments` body
theorems: the string scanner returns safe content verbatim, the decimal
rendering of an integer scans back to the same integer, `bytes.replace`
passes over regions free of the pattern's first character, and the parser
evaluates each body family to its envelope. -/

theorem asString_data (l : List Char) : l.asString.data = l := rfl

theorem string_data_append (a b : String) : (a ++ b).data = a.data ++ b.data := by
  cases a; cases b; rfl

theorem data_asString_self (s : String) : s.data.asString = s := by cases s; rfl

theorem scanStr_safe (l rest : List Char) (h : ∀ c ∈ l, SafeChar c) :
    scanStr (l ++ '"' :: rest) = some (l, rest) := by
  induction l with
  | nil => rfl
  | cons c cs ih =>
    obtain ⟨h1, h2, h3⟩ := h c (by simp)
    have hrec := ih (fun c hc => h c (by simp [hc]))
    simp only [List.cons_append, scanStr, List.append_eq]
    rw [if_neg h2, if_neg (by push_neg; exact ⟨h3, by omega⟩), hrec]

theorem parseStr_val (s : String) (rest : List Char) (hs : SafeStr s) (f : Nat) :
    parseVal (f + 1) ('"' :: (s.data ++ '"' :: rest)) = some (.jstr s, rest) := by
  have hscan := scanStr_safe s.data rest hs
  simp [parseVal, skipWs, hscan, data_asString_self]

theorem digitChar_spec (m : Nat) (hm : m < 10) :
    (Char.ofNat (48 + m)).toNat = 48 + m ∧ isDigitChar (Char.ofNat (48 + m)) = true := by
  interval_cases m <;> exact ⟨rfl, rfl⟩

theorem natDigitsAux_ne_nil : ∀ (fuel n : Nat) (acc : List Char), acc ≠ [] →
    natDigitsAux fuel n acc ≠ [] := by
  intro fuel
  induction fuel with
  | zero => intro n acc h; simpa [natDigitsAux] using h
  | succ g ih =>
    intro n acc h
    by_cases hn : n < 10
    · simp [natDigitsAux, hn]
    · simpa only [natDigitsAux, if_neg hn] using ih (n / 10) _ (by simp)

theorem natDigits_ne_nil (n : Nat) : natDigits n ≠ [] := by
  unfold natDigits
  by_cases hn : n < 10
  · simp [natDigitsAux, hn]
  · simpa only [natDigitsAux, if_neg hn] using natDigitsAux_ne_nil n (n / 10) _ (by simp)

theorem natDigitsAux_digits : ∀ (fuel n : Nat) (acc : List Char),
    (∀ c ∈ acc, isDigitChar c = true) →
    ∀ c ∈ natDigitsAux fuel n acc, isDigitChar c = true := by
  intro fuel
  induction fuel with
  | zero => intro n acc h; simpa [natDigitsAux] using h
  | succ g ih =>
    intro n acc h
    have hd := (digitChar_spec (n % 10) (Nat.mod_lt _ (by norm_num))).2
    by_cases hn : n < 10
    · intro c hc
      simp only [natDigitsAux, if_pos hn] at hc
      rcases List.mem_cons.mp hc with rfl | hc2
      · exact hd
      · exact h c hc2
    · intro c hc
      simp only [natDigitsAux, if_neg hn] at hc
      refine ih (n / 10) _ (fun c2 hc2 => ?_) c hc
      rcases List.mem_cons.mp hc2 with rfl | hc3
      · exact hd
      · exact h c2 hc3

theorem natDigits_digits (n : Nat) : ∀ c ∈ natDigits n, isDigitChar c = true :=
  natDigitsAux_digits (n + 1) n [] (by simp)

theorem natDigitsAux_append : ∀ (fuel n : Nat) (acc : List Char),
    natDigitsAux fuel n acc = natDigitsAux fuel n [] ++ acc := by
  intro fuel
  induction fuel with
  | zero => intro n acc; simp [natDigitsAux]
  | succ g ih =>
    intro n acc
    by_cases hn : n < 10
    · simp [natDigitsAux, hn]
    · simp only [natDigitsAux, if_neg hn]
      rw [ih (n / 10) (Char.ofNat (48 + n % 10) :: acc),
        ih (n / 10) [Char.ofNat (48 + n % 10)]]
      simp

theorem natDigitsAux_fuel_irrel : ∀ (n f1 f2 : Nat) (acc : List Char),
    n < f1 → n < f2 → natDigitsAux f1 n acc = natDigitsAux f2 n acc := by
  intro n
  induction n using Nat.strong_induction_on with
  | _ n ih =>
    intro f1 f2 acc h1 h2
    cases f1 with
    | zero => omega
    | succ g1 =>
      cases f2 with
      | zero => omega
      | succ g2 =>
        by_cases hn : n < 10
        · simp [natDigitsAux, hn]
        · simp only [natDigitsAux, if_neg hn]
          have hdiv : n / 10 < n := Nat.div_lt_self (by omega) (by norm_num)
          exact ih (n / 10) hdiv g1 g2 _ (by omega) (by omega)

theorem digitsToNat_append (xs : List Char) : ∀ (ys : List Char) (a : Nat),
    digitsToNat (xs ++ ys) a = digitsToNat ys (digitsToNat xs a) := by
  induction xs with
  | nil => intro ys a; rfl
  | cons c cs ih =>
    intro ys a
    show digitsToNat (cs ++ ys) (a * 10 + (c.toNat - 48)) =
      digitsToNat ys (digitsToNat cs (a * 10 + (c.toNat - 48)))
    exact ih ys (a * 10 + (c.toNat - 48))

theorem digitsToNat_natDigits (n : Nat) : digitsToNat (natDigits n) 0 = n := by
  induction n using Nat.strong_induction_on with
  | _ n ih =>
    have hd := (digitChar_spec (n % 10) (Nat.mod_lt _ (by norm_num))).1
    by_cases hn : n < 10
    · unfold natDigits
      simp only [natDigitsAux, if_pos hn]
      simp only [digitsToNat]
      rw [hd]
      omega
    · unfold natDigits
      simp only [natDigitsAux, if_neg hn]
      rw [natDigitsAux_append]
      have hdiv : n / 10 < n := Nat.div_lt_self (by omega) (by norm_num)
      have hirr : natDigitsAux n (n / 10) [] = natDigits (n / 10) := by
        unfold natDigits
        exact natDigitsAux_fuel_irrel (n / 10) n (n / 10 + 1) [] (by omega) (by omega)
      rw [hirr, digitsToNat_append, ih (n / 10) hdiv]
      simp only [digitsToNat]
      rw [hd]
      omega

theorem scanDigits_append (ds rest : List Char)
    (hds : ∀ c ∈ ds, isDigitChar c = true)
    (hrest : ∀ c cs2, rest = c :: cs2 → isDigitChar c = false) :
    scanDigits (ds ++ rest) = (ds, rest) := by
  induction ds with
  | nil =>
    cases rest with
    | nil => rfl
    | cons c cs2 => simp [scanDigits, hrest c cs2 rfl]
  | cons c cs ih =>
    have h1 := hds c (by simp)
    simp [scanDigits, h1, ih (fun c2 hc2 => hds c2 (by simp [hc2]))]

theorem digit_head_facts (c : Char) (h : isDigitChar c = true) :
    c ≠ '"' ∧ c ≠ '\x7b' ∧ c ≠ '[' ∧ c ≠ '-' ∧
      c ≠ ' ' ∧ c ≠ '\n' ∧ c ≠ '\t' ∧ c ≠ '\r' := by
  simp only [isDigitChar, Bool.and_eq_true, decide_eq_true_eq] at h
  refine ⟨?_, ?_, ?_, ?_, ?_, ?_, ?_, ?_⟩ <;>
    { rintro rfl; exact absurd h (by decide) }

theorem parseNum_val (i : Int) (rest : List Char) (f : Nat)
    (hrest : ∀ c cs2, rest = c :: cs2 → isDigitChar c = false) :
    parseVal (f + 1) ((pyIntStr i).data ++ rest) = some (.jnum i, rest) := by
  have hsd : scanDigits (natDigits i.natAbs ++ rest) = (natDigits i.natAbs, rest) :=
    scanDigits_append _ _ (natDigits_digits _) hrest
  obtain ⟨c, cs, hd⟩ : ∃ c cs, natDigits i.natAbs = c :: cs := by
    cases hcase : natDigits i.natAbs with
    | nil => exact absurd hcase (natDigits_ne_nil _)
    | cons c cs => exact ⟨c, cs, rfl⟩
  have hcdig : isDigitChar c = true := natDigits_digits _ c (by rw [hd]; simp)
  obtain ⟨hq, hb, hk, hm, hw1, hw2, hw3, hw4⟩ := digit_head_facts c hcdig
  rw [hd] at hsd
  simp only [List.cons_append] at hsd
  by_cases hneg : i < 0
  · have hstr : (pyIntStr i).data = '-' :: natDigits i.natAbs := by
      rw [pyIntStr, if_pos hneg, string_data_append, asString_data]
      rfl
    rw [hstr, hd]
    simp only [List.cons_append]
    simp [parseVal, skipWs, hsd]
    rw [← hd, digitsToNat_natDigits]
    omega
  · have hstr : (pyIntStr i).data = natDigits i.natAbs := by
      rw [pyIntStr, if_neg hneg]
      exact asString_data _
    rw [hstr, hd]
    simp only [List.cons_append]
    simp [parseVal, skipWs, hsd, hcdig, hq, hb, hk, hm, hw1, hw2, hw3, hw4]
    rw [← hd, digitsToNat_natDigits]
    omega

theorem replaceAux_zero (pat rep s : List Char) : replaceAux pat rep 0 s = s := by
  cases s <;> rfl

theorem replaceAux_skip (p : Char) (pat2 rep : List Char) :
    ∀ (xs : List Char), p ∉ xs → ∀ (fuel : Nat) (ys : List Char),
      replaceAux (p :: pat2) rep fuel (xs ++ ys) =
        xs ++ replaceAux (p :: pat2) rep (fuel - xs.length) ys := by
  intro xs
  induction xs with
  | nil => intro _ fuel ys; simp
  | cons x xs2 ih =>
    intro h fuel ys
    have hpx : ¬(p = x) := fun hc => h (by simp [hc])
    have hx : p ∉ xs2 := fun hc => h (by simp [hc])
    cases fuel with
    | zero => simp [replaceAux_zero]
    | succ g =>
      have hpref : ¬(List.isPrefixOf (p :: pat2) (x :: (xs2 ++ ys)) = true) := by
        simp [List.isPrefixOf]
        intro hc
        exact absurd hc hpx
      simp only [List.cons_append, replaceAux, List.append_eq]
      rw [if_neg hpref, ih hx g ys]
      simp [Nat.succ_sub_succ]

theorem pyQuote_data (s : String) : (pyQuote s).data = '"' :: (s.data ++ ['"']) := by
  cases s
  rfl

theorem pyJoin_two (sep : String) (a b : String) (l : List String) :
    pyJoin sep (a :: b :: l) = a ++ sep ++ pyJoin sep (b :: l) := rfl

theorem pyJoin_quoted_no_H (ids : List String) (h : ∀ s ∈ ids, BulkSafeStr s) :
    'H' ∉ (pyJoin "," (ids.map pyQuote)).data := by
  induction ids with
  | nil => simp [pyJoin]
  | cons s tail ih =>
    have hs : 'H' ∉ (pyQuote s).data := by
      rw [pyQuote_data]
      simp
      exact fun hc => ((h s (by simp)) 'H' hc).2 rfl
    cases tail with
    | nil => simpa [pyJoin] using hs
    | cons t tail2 =>
      have ih2 := ih (fun s2 hs2 => h s2 (by simp [hs2]))
      have hcomma : (",").data = [','] := rfl
      simp only [List.map, pyJoin_two, string_data_append, List.mem_append, hcomma]
      intro hc
      rcases hc with (hc1 | hc2) | hc3
      · exact hs hc1
      · simp at hc2
      · exact ih2 (by simpa using hc3)

theorem pyJoin_quoted_length (ids : List String) :
    3 * ids.length ≤ (pyJoin "," (ids.map pyQuote)).data.length + 1 := by
  induction ids with
  | nil => simp [pyJoin]
  | cons s tail ih =>
    cases tail with
    | nil =>
      simp [pyJoin, pyQuote_data]
    | cons t tail2 =>
      simp only [List.map, pyJoin_two, string_data_append, List.length_append,
        pyQuote_data] at ih ⊢
      simp at ih ⊢
      omega

theorem parseElems_ids : ∀ (ids : List String), (∀ s ∈ ids, SafeStr s) →
    ∀ (rest : List Char) (f : Nat), ids ≠ [] →
      parseElems (f + 2 * ids.length) ((pyJoin "," (ids.map pyQuote)).data ++ ']' :: rest) =
        some (ids.map Json.jstr, rest) := by
  intro ids
  induction ids with
  | nil => intro _ rest f hne; exact absurd rfl hne
  | cons s tail ih =>
    intro hsafe rest f _
    cases tail with
    | nil =>
      rw [show f + 2 * ((s :: ([] : List String)).length) = (f + 1) + 1 from by
        simp [List.length_cons]]
      have hps := parseStr_val s (']' :: rest) (hsafe s (by simp)) f
      simp [parseElems, pyJoin, pyQuote_data, skipWs, hps]
    | cons t tail2 =>
      rw [show f + 2 * ((s :: t :: tail2 : List String).length) =
          (f + 2 * (t :: tail2 : List String).length + 1) + 1 from by
        simp [List.length_cons]; ring]
      have hcomma : (",").data = [','] := rfl
      have hps := parseStr_val s
        (',' :: ((pyJoin "," ((t :: tail2).map pyQuote)).data ++ ']' :: rest))
        (hsafe s (by simp)) (f + 2 * (t :: tail2 : List String).length)
      have ihh : parseElems (f + 2 * ((t :: tail2 : List String).length) + 1)
          ((pyJoin "," ((t :: tail2).map pyQuote)).data ++ ']' :: rest) =
          some ((t :: tail2).map Json.jstr, rest) := by
        have h2 := ih (fun x hx => hsafe x (by simp [hx])) rest (f + 1) (by simp)
        rw [show f + 1 + 2 * ((t :: tail2 : List String).length) =
            f + 2 * ((t :: tail2 : List String).length) + 1 from by ring] at h2
        exact h2
      obtain ⟨G, hG⟩ : ∃ G, G = f + 2 * ((t :: tail2 : List String).length) + 1 :=
        ⟨_, rfl⟩
      rw [← hG] at hps ihh ⊢
      simp only [List.map_cons] at hps ihh ⊢
      simp [parseElems, pyJoin_two, string_data_append, pyQuote_data, hcomma, skipWs,
        hps, ihh]

theorem parseArr_ids (ids : List String) (h : ∀ s ∈ ids, SafeStr s) (rest : List Char)
    (f : Nat) :
    parseVal (f + 2 * ids.length + 1)
      ('[' :: ((pyJoin "," (ids.map pyQuote)).data ++ ']' :: rest)) =
      some (.jarr (ids.map Json.jstr), rest) := by
  cases ids with
  | nil =>
    have hnil : (("" : String)).data = [] := rfl
    simp [parseVal, pyJoin, skipWs, hnil]
  | cons s tail =>
    obtain ⟨R, hR⟩ : ∃ R, pyJoin "," ((s :: tail).map pyQuote) = pyQuote s ++ R := by
      cases tail with
      | nil => exact ⟨"", by simp [pyJoin]⟩
      | cons t tail2 => exact ⟨"," ++ pyJoin "," ((t :: tail2).map pyQuote),
          by simp [pyJoin_two, String.append_assoc]⟩
    have hX : (pyJoin "," ((s :: tail).map pyQuote)).data =
        '"' :: ((s.data ++ ['"']) ++ R.data) := by
      rw [hR, string_data_append, pyQuote_data]
      simp
    have helems := parseElems_ids (s :: tail) h rest f (by simp)
    obtain ⟨G, hG⟩ : ∃ G, G = f + 2 * ((s :: tail : List String).length) := ⟨_, rfl⟩
    rw [← hG] at helems ⊢
    simp only [parseVal]
    simp only [hX] at helems ⊢
    simp only [List.cons_append, List.append_assoc, List.singleton_append,
      List.nil_append] at helems ⊢
    simp [skipWs, helems]

theorem gp_body_shape (payment_id : String) :
    (requestBody (Op.get_payments payment_id)).data =
      gpPre ++ (payment_id.data ++ gpPost) := rfl

theorem gp_parse (payment_id : String) (hpid : SafeStr payment_id) (f : Nat) :
    parseVal (f+1+1+1+1+1+1+1+1+1+1) (gpPre ++ (payment_id.data ++ gpPost)) =
      some (getPaymentsEnvelope payment_id, ['\n']) := by
  have hscan := scanStr_safe payment_id.data
    ('\n' :: ' ' :: ' ' :: ' ' :: ' ' :: '\x7d' :: '\n' :: '\x7d' :: '\n' :: []) hpid
  simp [gpPre, gpPost, parseVal, parseMembers, skipWs, scanStr, hscan,
    data_asString_self, getPaymentsEnvelope]
  decide

theorem blk_body1_shape (ids : List String) :
    (pyReplace getBulkPaymentsTemplate "PAYMENTIDS" (pyJoin "," (ids.map pyQuote))).data =
      blkPre ++ ((pyJoin "," (ids.map pyQuote)).data ++
        (blkMid ++ (['H', 'E', 'I', 'G', 'H', 'T'] ++ blkPost))) := rfl

theorem replaceAux_nil (pat rep : List Char) (fuel : Nat) :
    replaceAux pat rep fuel [] = [] := by cases fuel <;> rfl

theorem replace_height_tail_ge (rep : List Char) (fuel : Nat) (hf : 1 <= fuel) :
    replaceAux ['H', 'E', 'I', 'G', 'H', 'T'] rep fuel
      (['H', 'E', 'I', 'G', 'H', 'T'] ++ blkPost) = rep ++ blkPost := by
  obtain ⟨g, rfl⟩ : ∃ g, fuel = g + 1 := ⟨fuel - 1, by omega⟩
  simp only [List.cons_append, List.nil_append, replaceAux]
  rw [if_pos (by decide)]
  have htail : replaceAux ['H', 'E', 'I', 'G', 'H', 'T'] rep g blkPost = blkPost := by
    have h2 := replaceAux_skip 'H' ['E', 'I', 'G', 'H', 'T'] rep blkPost (by decide) g []
    simpa [replaceAux_nil] using h2
  show rep ++ replaceAux ['H', 'E', 'I', 'G', 'H', 'T'] rep g blkPost = rep ++ blkPost
  rw [htail]

theorem blk_body2_shape (ids : List String) (mbh : Int)
    (hH : 'H' ∉ (pyJoin "," (ids.map pyQuote)).data) :
    (requestBody (Op.get_bulk_payments ids mbh)).data =
      blkPre ++ ((pyJoin "," (ids.map pyQuote)).data ++
        (blkMid ++ ((pyIntStr mbh).data ++ blkPost))) := by
  have hPl : blkPre.length = 104 := rfl
  have hMl : blkMid.length = 28 := rfl
  have hPostl : blkPost.length = 9 := rfl
  have houter : ∀ s : String, (pyReplace s "HEIGHT" (pyIntStr mbh)).data =
      replaceAux ['H', 'E', 'I', 'G', 'H', 'T'] (pyIntStr mbh).data s.data.length s.data :=
    fun s => rfl
  show (pyReplace (pyReplace getBulkPaymentsTemplate "PAYMENTIDS"
    (pyJoin "," (ids.map pyQuote))) "HEIGHT" (pyIntStr mbh)).data = _
  rw [houter, blk_body1_shape]
  rw [replaceAux_skip 'H' ['E', 'I', 'G', 'H', 'T'] ((pyIntStr mbh).data) blkPre (by decide)]
  rw [replaceAux_skip 'H' ['E', 'I', 'G', 'H', 'T'] ((pyIntStr mbh).data) _ hH]
  rw [replaceAux_skip 'H' ['E', 'I', 'G', 'H', 'T'] ((pyIntStr mbh).data) blkMid (by decide)]
  rw [replace_height_tail_ge]
  simp only [List.length_append, hPl, hMl, hPostl, List.length_cons, List.length_nil]
  omega

theorem blk_inner (gA gN : Nat) (hrel : gA = gN + 1) (vinp ninp : List Char)
    (varr vnum : Json)
    (hval : parseVal gA vinp = some (varr,
      ',' :: '\n' :: ' ' :: ' ' :: ' ' :: ' ' :: ' ' :: ' ' :: '\"' :: 'm' :: 'i' :: 'n' :: '_' :: 'b' :: 'l' :: 'o' :: 'c' :: 'k' :: '_' :: 'h' :: 'e' :: 'i' :: 'g' :: 'h' :: 't' :: '\"' :: ':' :: ninp))
    (hnum : parseVal gN ninp = some (vnum,
      '\n' :: ' ' :: ' ' :: ' ' :: ' ' :: '\x7d' :: '\n' :: '\x7d' :: '\n' :: [])) :
    parseMembers (gA + 1)
      ('\"' :: 'p' :: 'a' :: 'y' :: 'm' :: 'e' :: 'n' :: 't' :: '_' :: 'i' :: 'd' :: 's' :: '\"' :: ':' :: vinp) =
      some ([("payment_ids", varr), ("min_block_height", vnum)],
        '\n' :: '\x7d' :: '\n' :: []) := by
  simp [parseMembers, skipWs, scanStr, hval]
  rw [hrel]
  simp [parseMembers, skipWs, scanStr, hnum]
  decide

theorem blk_outer (gI : Nat) (inp2 : List Char) (kvsI : List (String × Json))
    (hinner : parseMembers gI ('\"' :: inp2) = some (kvsI, '\n' :: '\x7d' :: '\n' :: [])) :
    parseVal (gI + 1 + 1 + 1 + 1 + 1 + 1)
      ('\x7b' :: '\n' :: ' ' :: ' ' :: '\"' :: 'j' :: 's' :: 'o' :: 'n' :: 'r' :: 'p' :: 'c' :: '\"' :: ':' :: '\"' :: '2' :: '.' :: '0' :: '\"' :: ',' :: '\n' :: ' ' :: ' ' :: '\"' :: 'i' :: 'd' :: '\"' :: ':' :: '\"' :: '0' :: '\"' :: ',' :: '\n' :: ' ' :: ' ' :: '\"' :: 'm' :: 'e' :: 't' :: 'h' :: 'o' :: 'd' :: '\"' :: ':' :: '\"' :: 'g' :: 'e' :: 't' :: '_' :: 'b' :: 'u' :: 'l' :: 'k' :: '_' :: 'p' :: 'a' :: 'y' :: 'm' :: 'e' :: 'n' :: 't' :: 's' :: '\"' :: ',' :: '\n' :: ' ' :: ' ' :: '\"' :: 'p' :: 'a' :: 'r' :: 'a' :: 'm' :: 's' :: '\"' :: ':' :: '\n' :: ' ' :: ' ' :: ' ' :: ' ' :: '\x7b' :: '\n' :: ' ' :: ' ' :: ' ' :: ' ' :: ' ' :: ' ' :: ('\"' :: inp2)) =
      some (Json.jobj [("jsonrpc", Json.jstr "2.0"), ("id", Json.jstr "0"),
        ("method", Json.jstr "get_bulk_payments"), ("params", Json.jobj kvsI)],
        ['\n']) := by
  simp [parseVal, parseMembers, skipWs, scanStr, hinner]
  decide

theorem gp_full (payment_id : String) (hpid : SafeStr payment_id) :
    parseJson (requestBody (Op.get_payments payment_id)) =
      some (getPaymentsEnvelope payment_id) := by
  have hPl : gpPre.length = 100 := rfl
  have hBl : gpPost.length = 10 := rfl
  obtain ⟨f0, hf0⟩ : ∃ f0, (gpPre ++ (payment_id.data ++ gpPost)).length + 1 =
      f0 + 1 + 1 + 1 + 1 + 1 + 1 + 1 + 1 + 1 + 1 := by
    refine ⟨(gpPre ++ (payment_id.data ++ gpPost)).length - 9, ?_⟩
    simp only [List.length_append, hPl, hBl]
    omega
  simp only [parseJson, gp_body_shape]
  rw [hf0, gp_parse payment_id hpid f0]
  simp [skipWs]

theorem blk_full (ids : List String) (mbh : Int) (hsafe : ∀ s ∈ ids, BulkSafeStr s) :
    parseJson (requestBody (Op.get_bulk_payments ids mbh)) =
      some (getBulkPaymentsEnvelope ids mbh) := by
  have hsafe2 : ∀ s ∈ ids, SafeStr s := fun s hs c hc => ((hsafe s hs) c hc).1
  have hH := pyJoin_quoted_no_H ids hsafe
  have hshape := blk_body2_shape ids mbh hH
  have hJlen := pyJoin_quoted_length ids
  have hPl : blkPre.length = 104 := rfl
  have hMl : blkMid.length = 28 := rfl
  have hPostl : blkPost.length = 9 := rfl
  obtain ⟨f, hf⟩ : ∃ f, (blkPre ++ ((pyJoin "," (ids.map pyQuote)).data ++
      (blkMid ++ ((pyIntStr mbh).data ++ blkPost)))).length + 1 =
      ((f + 1 + 2 * ids.length + 1) + 1) + 1 + 1 + 1 + 1 + 1 + 1 := by
    refine ⟨(blkPre ++ ((pyJoin "," (ids.map pyQuote)).data ++
      (blkMid ++ ((pyIntStr mbh).data ++ blkPost)))).length + 1 - (2 * ids.length + 9), ?_⟩
    simp only [List.length_append, hPl, hMl, hPostl]
    omega
  have hnum := parseNum_val mbh ('\n' :: ' ' :: ' ' :: ' ' :: ' ' :: '\x7d' :: '\n' :: '\x7d' :: '\n' :: []) (f + 2 * ids.length)
    (by
      intro c cs2 hc
      injection hc with h1 h2
      rw [← h1]
      rfl)
  have harr := parseArr_ids ids hsafe2 (',' :: '\n' :: ' ' :: ' ' :: ' ' :: ' ' :: ' ' :: ' ' :: '\"' :: 'm' :: 'i' :: 'n' :: '_' :: 'b' :: 'l' :: 'o' :: 'c' :: 'k' :: '_' :: 'h' :: 'e' :: 'i' :: 'g' :: 'h' :: 't' :: '\"' :: ':' :: ((pyIntStr mbh).data ++ ('\n' :: ' ' :: ' ' :: ' ' :: ' ' :: '\x7d' :: '\n' :: '\x7d' :: '\n' :: []))) (f + 1)
  have hrel : (f + 1) + 2 * ids.length + 1 = ((f + 2 * ids.length) + 1) + 1 := by ring
  have hin := blk_inner ((f + 1) + 2 * ids.length + 1) ((f + 2 * ids.length) + 1) hrel
    ('[' :: ((pyJoin "," (ids.map pyQuote)).data ++ ']' :: (',' :: '\n' :: ' ' :: ' ' :: ' ' :: ' ' :: ' ' :: ' ' :: '\"' :: 'm' :: 'i' :: 'n' :: '_' :: 'b' :: 'l' :: 'o' :: 'c' :: 'k' :: '_' :: 'h' :: 'e' :: 'i' :: 'g' :: 'h' :: 't' :: '\"' :: ':' :: ((pyIntStr mbh).data ++ ('\n' :: ' ' :: ' ' :: ' ' :: ' ' :: '\x7d' :: '\n' :: '\x7d' :: '\n' :: [])))))
    ((pyIntStr mbh).data ++ ('\n' :: ' ' :: ' ' :: ' ' :: ' ' :: '\x7d' :: '\n' :: '\x7d' :: '\n' :: []))
    (Json.jarr (ids.map Json.jstr)) (Json.jnum mbh) harr hnum
  have hout := blk_outer (((f + 1) + 2 * ids.length + 1) + 1)
    ('p' :: 'a' :: 'y' :: 'm' :: 'e' :: 'n' :: 't' :: '_' :: 'i' :: 'd' :: 's' :: '\"' :: ':' :: ('[' :: ((pyJoin "," (ids.map pyQuote)).data ++ ']' :: (',' :: '\n' :: ' ' :: ' ' :: ' ' :: ' ' :: ' ' :: ' ' :: '\"' :: 'm' :: 'i' :: 'n' :: '_' :: 'b' :: 'l' :: 'o' :: 'c' :: 'k' :: '_' :: 'h' :: 'e' :: 'i' :: 'g' :: 'h' :: 't' :: '\"' :: ':' :: ((pyIntStr mbh).data ++ ('\n' :: ' ' :: ' ' :: ' ' :: ' ' :: '\x7d' :: '\n' :: '\x7d' :: '\n' :: []))))))
    [("payment_ids", Json.jarr (ids.map Json.jstr)), ("min_block_height", Json.jnum mbh)]
    hin
  simp only [parseJson, hshape]
  rw [hf]
  rw [show (blkPre ++ ((pyJoin "," (ids.map pyQuote)).data ++
      (blkMid ++ ((pyIntStr mbh).data ++ blkPost)))) =
      ('\x7b' :: '\n' :: ' ' :: ' ' :: '\"' :: 'j' :: 's' :: 'o' :: 'n' :: 'r' :: 'p' :: 'c' :: '\"' :: ':' :: '\"' :: '2' :: '.' :: '0' :: '\"' :: ',' :: '\n' :: ' ' :: ' ' :: '\"' :: 'i' :: 'd' :: '\"' :: ':' :: '\"' :: '0' :: '\"' :: ',' :: '\n' :: ' ' :: ' ' :: '\"' :: 'm' :: 'e' :: 't' :: 'h' :: 'o' :: 'd' :: '\"' :: ':' :: '\"' :: 'g' :: 'e' :: 't' :: '_' :: 'b' :: 'u' :: 'l' :: 'k' :: '_' :: 'p' :: 'a' :: 'y' :: 'm' :: 'e' :: 'n' :: 't' :: 's' :: '\"' :: ',' :: '\n' :: ' ' :: ' ' :: '\"' :: 'p' :: 'a' :: 'r' :: 'a' :: 'm' :: 's' :: '\"' :: ':' :: '\n' :: ' ' :: ' ' :: ' ' :: ' ' :: '\x7b' :: '\n' :: ' ' :: ' ' :: ' ' :: ' ' :: ' ' :: ' ' :: ('\"' :: ('p' :: 'a' :: 'y' :: 'm' :: 'e' :: 'n' :: 't' :: '_' :: 'i' :: 'd' :: 's' :: '\"' :: ':' :: ('[' :: ((pyJoin "," (ids.map pyQuote)).data ++ ']' :: (',' :: '\n' :: ' ' :: ' ' :: ' ' :: ' ' :: ' ' :: ' ' :: '\"' :: 'm' :: 'i' :: 'n' :: '_' :: 'b' :: 'l' :: 'o' :: 'c' :: 'k' :: '_' :: 'h' :: 'e' :: 'i' :: 'g' :: 'h' :: 't' :: '\"' :: ':' :: ((pyIntStr mbh).data ++ ('\n' :: ' ' :: ' ' :: ' ' :: ' ' :: '\x7d' :: '\n' :: '\x7d' :: '\n' :: [])))))))) from rfl]
  rw [hout]
  simp [skipWs, getBulkPaymentsEnvelope]

/-! ## Claims -/

/-- Claim C1 (code bug).  The spec and the library's own docstrings say the
dispatch returns the full parsed envelope on success — `getheight()` against
`\x7b"status":200,"result":\x7b"height":1146043\x7d\x7d` should return that
structure.  The code raises nothing there, but `__sendrequest`
(lines 274-293) has no `return` statement: the old `return` block is
commented out (lines 283-286), so every successful call returns Python
`None`, never the envelope.  This theorem evaluates the code at that input:
the outcome is `Except.ok none` (no exception, value `None`), not the
envelope the docstrings promise. -/
theorem getheight_success_returns_python_none :
    ∀ w : MoneroWallet,
      (runOp w Op.getheight
        [("status", Json.jnum 200),
         ("result", Json.jobj [("height", Json.jnum 1146043)])]).outcome = Except.ok none :=
  fun _ => rfl

/-- Claim C2.  For every public operation, whenever the parsed response's
`error.message` equals `"Method not found"`, the dispatch raises
`MethodNotFoundError` carrying the original request body.  No hypothesis
about `status` is needed: the error check (lines 289-291) precedes the
status check (line 292), so the exception is raised even when `status` is
not 200 — the witness exercises exactly that, with `status` 500. -/
theorem method_not_found_raised_before_status_check
    (op : Op) (w : MoneroWallet) (result : List (String × Json)) (ev : Json)
    (h1 : List.lookup "error" result = some ev)
    (h2 : ev.objGet "message" = some (Json.jstr "Method not found")) :
    (runOp w op result).outcome =
      Except.error (PyError.methodNotFoundError (requestBody op)) := by
  cases ev with
  | jobj kvs =>
    simp only [Json.objGet] at h2
    simp [runOp, sendrequest, h1, h2, isMethodNotFoundMsg]
  | jnull => simp [Json.objGet] at h2
  | jbool b => simp [Json.objGet] at h2
  | jnum n => simp [Json.objGet] at h2
  | jstr s => simp [Json.objGet] at h2
  | jarr xs => simp [Json.objGet] at h2

theorem method_not_found_raised_before_status_check_witness :
    (runOp (MoneroWallet.init "http" "127.0.0.1" 18082 "/json_rpc") Op.getbalance
      [("error", Json.jobj [("message", Json.jstr "Method not found")]),
       ("status", Json.jnum 500)]).outcome =
      Except.error (PyError.methodNotFoundError (requestBody Op.getbalance)) :=
  method_not_found_raised_before_status_check Op.getbalance _ _
    (Json.jobj [("message", Json.jstr "Method not found")]) rfl rfl

/-- Claim C3.  For every public operation, when the response's `status`
field is present and differs from 200 and the error-field check raises
nothing, the dispatch raises `StatusCodeError` carrying the full parsed
response (line 292-293). -/
theorem bad_status_raises_status_code_error
    (op : Op) (w : MoneroWallet) (result : List (String × Json)) (st : Json)
    (hst : List.lookup "status" result = some st)
    (hne : st ≠ Json.jnum 200)
    (herr : ErrorBranchSilent result) :
    (runOp w op result).outcome = Except.error (PyError.statusCodeError result) := by
  have h200 : isStatus200 st = false := by
    cases st with
    | jnum n =>
      simp only [isStatus200, decide_eq_false_iff_not]
      intro h
      exact hne (by rw [h])
    | jnull => rfl
    | jbool b => rfl
    | jstr s => rfl
    | jarr xs => rfl
    | jobj kvs => rfl
  show (sendrequest (requestBody op) result) = _
  rw [sendrequest_falls_through _ _ herr]
  simp [statusCheck, hst, h200]

theorem bad_status_raises_status_code_error_witness :
    (runOp (MoneroWallet.init "http" "127.0.0.1" 18082 "/json_rpc") Op.getaddress
      [("status", Json.jnum 500), ("result", Json.jobj [])]).outcome =
      Except.error (PyError.statusCodeError
        [("status", Json.jnum 500), ("result", Json.jobj [])]) :=
  bad_status_raises_status_code_error Op.getaddress _ _ (Json.jnum 500) rfl
    (by simp) (Or.inl rfl)

/-- Claim C4.  An `error` field whose `message` differs from
`"Method not found"` is silently ignored: the dispatch raises nothing on
account of it and control falls through to the status check alone; when
`status` is additionally 200, the call completes without raising any
classified error (it returns Python `None`). -/
theorem unclassified_error_message_ignored
    (op : Op) (w : MoneroWallet) (result : List (String × Json))
    (kvs : List (String × Json)) (m : Json)
    (he : List.lookup "error" result = some (Json.jobj kvs))
    (hm : List.lookup "message" kvs = some m)
    (hne : m ≠ Json.jstr "Method not found") :
    (runOp w op result).outcome = statusCheck result ∧
    (List.lookup "status" result = some (Json.jnum 200) →
      (runOp w op result).outcome = Except.ok none) := by
  have h1 : (runOp w op result).outcome = statusCheck result :=
    sendrequest_falls_through _ _ (Or.inr ⟨kvs, m, he, hm, hne⟩)
  refine ⟨h1, fun hstatus => ?_⟩
  rw [h1]
  simp [statusCheck, hstatus, isStatus200]

theorem unclassified_error_message_ignored_witness :
    (runOp (MoneroWallet.init "http" "127.0.0.1" 18082 "/json_rpc") Op.store
      [("error", Json.jobj [("message", Json.jstr "Some other failure")]),
       ("status", Json.jnum 200)]).outcome = Except.ok none :=
  (unclassified_error_message_ignored Op.store
    (MoneroWallet.init "http" "127.0.0.1" 18082 "/json_rpc")
    [("error", Json.jobj [("message", Json.jstr "Some other failure")]),
     ("status", Json.jnum 200)]
    [("message", Json.jstr "Some other failure")] (Json.jstr "Some other failure")
    rfl rfl (by simp)).2 rfl

/-- Claim C5.  Each of the six parameterless operations serializes a body
whose parsed form is exactly the three-field envelope: `jsonrpc` `"2.0"`,
`id` `"0"`, `method` the documented literal name — and no `params` key. -/
theorem parameterless_request_bodies :
    parseJson (requestBody Op.getbalance) = some (reqEnvelope "getbalance") ∧
    parseJson (requestBody Op.getaddress) = some (reqEnvelope "getaddress") ∧
    parseJson (requestBody Op.getheight) = some (reqEnvelope "getheight") ∧
    parseJson (requestBody Op.store) = some (reqEnvelope "store") ∧
    parseJson (requestBody Op.stop_wallet) = some (reqEnvelope "stop_wallet") ∧
    parseJson (requestBody Op.sweep_dust) = some (reqEnvelope "sweep_dust") ∧
    ∀ m : String,
      Json.objGet (reqEnvelope m) "jsonrpc" = some (Json.jstr "2.0") ∧
      Json.objGet (reqEnvelope m) "id" = some (Json.jstr "0") ∧
      Json.objGet (reqEnvelope m) "method" = some (Json.jstr m) ∧
      Json.objGet (reqEnvelope m) "params" = none :=
  ⟨rfl, rfl, rfl, rfl, rfl, rfl, fun _ => ⟨rfl, rfl, rfl, rfl⟩⟩

/-- Claim C7.  The two-branch construction of the `make_integrated_address`
body (lines 247-251) is observationally equal to the branch-free
construction that always substitutes the supplied payment id
(`makeIntegratedAddressSingle`, modelled from the spec); the body always
splices the supplied id verbatim between the two concrete template halves;
with no argument (empty id) the body denotes `params
\x7b"payment_id":""\x7d`, and with `"8c9a5fd001c3c74b"` it denotes the
supplied id. -/
theorem make_integrated_address_branch_free :
    (∀ payment_id : String,
      requestBody (Op.make_integrated_address payment_id) =
        makeIntegratedAddressSingle payment_id) ∧
    (∀ payment_id : String,
      (requestBody (Op.make_integrated_address payment_id)).data =
        miaBodyPre.data ++ payment_id.data ++ miaBodyPost.data) ∧
    parseJson (requestBody (Op.make_integrated_address "")) =
      some (makeIntegratedAddressEnvelope "") ∧
    parseJson (requestBody (Op.make_integrated_address "8c9a5fd001c3c74b")) =
      some (makeIntegratedAddressEnvelope "8c9a5fd001c3c74b") := by
  refine ⟨fun payment_id => ?_, fun payment_id => ?_, rfl, rfl⟩
  · by_cases h : payment_id = ""
    · subst h; rfl
    · simp only [requestBody, makeIntegratedAddressSingle, if_neg h]
  · by_cases h : payment_id = ""
    · subst h; rfl
    · simp only [requestBody, if_neg h]
      rfl

/-- Claim C8.  The server configuration is set once by the constructor and
no operation changes it: after any call (dispatching or unimplemented) the
`server` fields — and hence the URL built from them — are exactly the ones
passed to the constructor.  The only attribute an operation assigns is
`headers` (line 276). -/
theorem server_config_immutable :
    ∀ (protocol host : String) (port : Int) (path : String) (op : Op)
      (result : List (String × Json)),
      ((runOp (MoneroWallet.init protocol host port path) op result).wallet).server =
        Server.mk protocol host port path ∧
      (runOp (MoneroWallet.init protocol host port path) op result).url =
        mkUrl (Server.mk protocol host port path) ∧
      (∀ w : MoneroWallet, ((runOp w op result).wallet).server = w.server) ∧
      (∀ w : MoneroWallet,
        (MoneroWallet.transfer w).1.server = w.server ∧
        (MoneroWallet.transfer_split w).1.server = w.server ∧
        (MoneroWallet.split_integrated_address w).1.server = w.server) :=
  fun _ _ _ _ _ _ => ⟨rfl, rfl, fun _ => rfl, fun _ => ⟨rfl, rfl, rfl⟩⟩

/-- Claim C9.  `transfer`, `transfer_split` and `split_integrated_address`
have `pass` bodies (lines 104-111, 254-256): they build no request,
dispatch nothing, leave the client unchanged and return Python `None`. -/
theorem unimplemented_operations_do_nothing :
    ∀ w : MoneroWallet,
      MoneroWallet.transfer w = (w, none) ∧
      MoneroWallet.transfer_split w = (w, none) ∧
      MoneroWallet.split_integrated_address w = (w, none) :=
  fun _ => ⟨rfl, rfl, rfl⟩

/-- Claim C10 (implicit).  The dispatch presupposes a `status` key: when the
parsed response lacks one and the error-field check raises nothing, the
status check `result['status']` fails with an unhandled Python `KeyError` —
not with either of the classified `MethodNotFoundError` /
`StatusCodeError`. -/
theorem missing_status_key_raises_key_error
    (op : Op) (w : MoneroWallet) (result : List (String × Json))
    (hst : List.lookup "status" result = none)
    (herr : ErrorBranchSilent result) :
    (runOp w op result).outcome = Except.error (PyError.keyError "status") := by
  show (sendrequest (requestBody op) result) = _
  rw [sendrequest_falls_through _ _ herr]
  simp [statusCheck, hst]

theorem missing_status_key_raises_key_error_witness :
    (runOp (MoneroWallet.init "http" "127.0.0.1" 18082 "/json_rpc") Op.getheight
      [("result", Json.jobj [("height", Json.jnum 1146043)])]).outcome =
      Except.error (PyError.keyError "status") :=
  missing_status_key_raises_key_error Op.getheight _ _ rfl (Or.inl rfl)

/-- Claim C6 (counterexample).  The claim's universal quantification over
arbitrary strings fails on two counts.  A payment id containing a double
quote is spliced into the body verbatim with no escaping, so the body is not
valid JSON (`get_payments "\"" ` parses to nothing); and `get_bulk_payments`
substitutes `str(min_block_height)` for every occurrence of `HEIGHT` in the
whole body after the ids were spliced in (line 177), so the id `"HEIGHT"`
with height 5 yields a body whose params carry payment_ids `["5"]` — not the
supplied `["HEIGHT"]`. -/
theorem payment_id_injection_counterexample :
    parseJson (requestBody (Op.get_payments "\"")) = none ∧
    parseJson (requestBody (Op.get_bulk_payments ["HEIGHT"] 5)) =
      some (getBulkPaymentsEnvelope ["5"] 5) ∧
    getBulkPaymentsEnvelope ["5"] 5 ≠ getBulkPaymentsEnvelope ["HEIGHT"] 5 :=
  ⟨rfl, rfl, by simp [getBulkPaymentsEnvelope]⟩

/-- Claim C6 (amended).  For every payment id made of JSON-string-safe
characters (no double quote, no backslash, no control character),
`get_payments` produces a request body denoting params
`\x7bpayment_id: <the id>\x7d`; and for every list of such ids that moreover
avoid the letter `H` (so the later `HEIGHT` substitution pass cannot rewrite
them) and every integer height, `get_bulk_payments` produces a body denoting
params `\x7bpayment_ids: <the ids, order preserved>, min_block_height: <the
height>\x7d`. -/
theorem get_payments_and_bulk_payments_bodies
    (payment_id : String) (ids : List String) (min_block_height : Int)
    (h1 : SafeStr payment_id) (h2 : ∀ s ∈ ids, BulkSafeStr s) :
    parseJson (requestBody (Op.get_payments payment_id)) =
      some (getPaymentsEnvelope payment_id) ∧
    parseJson (requestBody (Op.get_bulk_payments ids min_block_height)) =
      some (getBulkPaymentsEnvelope ids min_block_height) :=
  ⟨gp_full payment_id h1, blk_full ids min_block_height h2⟩

theorem get_payments_and_bulk_payments_bodies_witness :
    parseJson (requestBody (Op.get_payments "94dd4c2613f5919d")) =
      some (getPaymentsEnvelope "94dd4c2613f5919d") ∧
    parseJson (requestBody (Op.get_bulk_payments ["a", "b"] 100)) =
      some (getBulkPaymentsEnvelope ["a", "b"] 100) :=
  ⟨(get_payments_and_bulk_payments_bodies "94dd4c2613f5919d" ["a", "b"] 100
      (by decide) (by decide)).1,
   (get_payments_and_bulk_payments_bodies "94dd4c2613f5919d" ["a", "b"] 100
      (by decide) (by decide)).2⟩

end Monerowallet
